import Mathlib

/-!
Verification development for the Elgato key light controller (Go).

The Go program is shallowly embedded: HTTP calls are modelled by oracles
(a read oracle `String → Option LightState` for GET, a write oracle
`String → WriteOutcome` for PUT), Go `int` is modelled by `Int` with Go's
truncating division written `Int.tdiv`, and Go maps are modelled by the
association list in the order the runtime happens to enumerate them (Go map
iteration order is not fixed, so that order is an explicit parameter).
-/

namespace Keylight

/-- Outcome of one `setLight` PUT against one address: `ok` (HTTP 200),
`offline` (transport error), `rejected` (non-200 status). -/
inductive WriteOutcome where
  | ok
  | offline
  | rejected
  deriving DecidableEq, Repr

/-- `LightState` from the source: `on`, `brightness`, and `temperature`
(the latter in the device's wire scale), all Go `int`s. -/
structure LightState where
  On : Int
  Brightness : Int
  Temperature : Int
  deriving DecidableEq, Repr

/-- `Config` from the source: the registry plus persisted defaults.
`lights` is the name→address map, kept here as an association list. -/
structure Config where
  lights : List (String × String)
  lastBrightness : Int
  lastTemperature : Int
  lastSelectedLight : String
  deriving DecidableEq, Repr

/-- `lightMode` from the source: which devices the next command targets. -/
inductive LightMode where
  | allLights
  | light1
  | light2
  deriving DecidableEq, Repr

/-- `controlFocus` from the source: the focused on-screen control. -/
inductive ControlFocus where
  | focusToggle
  | focusTurnOff
  | focusTurnOn
  | focusBrightness
  | focusTemperature
  deriving DecidableEq, Repr

/-- The TUI `model` from the source (rendering-only fields omitted). -/
structure TuiModel where
  config : Config
  lights : List (String × String)
  lightsList : List String
  selectedLightMode : LightMode
  focusedControl : ControlFocus
  brightnessValue : Int
  temperatureValue : Int
  message : String
  deriving DecidableEq, Repr

/-- Kelvin → wire conversion from `setLight`:
`elgatoTemp := int(1000000 / *temperature)`, Go truncating division. -/
def kelvinToWire (kelvin : Int) : Int :=
  Int.tdiv 1000000 kelvin

/-- Wire → Kelvin conversion used throughout the source:
`int(1000000 / state.Temperature)`, Go truncating division. -/
def wireToKelvin (wire : Int) : Int :=
  Int.tdiv 1000000 wire

/-- The Kelvin → wire → Kelvin round trip performed when a value written by
`setLight` is later read back and re-converted. -/
def kelvinRoundTrip (kelvin : Int) : Int :=
  wireToKelvin (kelvinToWire kelvin)

/-- Brightness increment from the source (`Update` right-arrow case and the
CLI `bright +` case): add 5, clamp above at 100. -/
def brightStepUp (v : Int) : Int :=
  let v := v + 5
  if v > 100 then 100 else v

/-- Brightness decrement from the source (`Update` left-arrow case and the
CLI `bright -` case): subtract 5, clamp below at 3. -/
def brightStepDown (v : Int) : Int :=
  let v := v - 5
  if v < 3 then 3 else v

/-- Temperature increment from the source (`Update` right-arrow case and the
CLI `temp +` case): add 200, clamp above at 7000. -/
def tempStepUp (v : Int) : Int :=
  let v := v + 200
  if v > 7000 then 7000 else v

/-- Temperature decrement from the source (`Update` left-arrow case and the
CLI `temp -` case): subtract 200, clamp below at 2900. -/
def tempStepDown (v : Int) : Int :=
  let v := v - 200
  if v < 2900 then 2900 else v

/-- The Go comparison `m.focusedControl <= focusTurnOn` on the
`controlFocus` enum: true exactly on the three action buttons. -/
def ControlFocus.isActionButton : ControlFocus → Bool
  | .focusToggle => true
  | .focusTurnOff => true
  | .focusTurnOn => true
  | .focusBrightness => false
  | .focusTemperature => false

/-- Key messages handled by `Update` (quit and discovery keys omitted;
`enter` is handled separately by `activateControl`). -/
inductive KeyMsg where
  | keyA
  | key1
  | key2
  | keyUp
  | keyDown
  | keyLeft
  | keyRight
  deriving DecidableEq, Repr

/-- The `Update` key handler from the source, for the selection shortcuts
and the four direction keys. -/
def Update (m : TuiModel) : KeyMsg → TuiModel
  | .keyA =>
      { m with selectedLightMode := .allLights,
               message := "Controlling all lights" }
  | .key1 =>
      if 1 ≤ m.lightsList.length then
        { m with selectedLightMode := .light1,
                 message := "Controlling " ++ m.lightsList.getD 0 "" }
      else m
  | .key2 =>
      if 2 ≤ m.lightsList.length then
        { m with selectedLightMode := .light2,
                 message := "Controlling " ++ m.lightsList.getD 1 "" }
      else m
  | .keyUp =>
      if m.focusedControl = .focusBrightness then
        { m with focusedControl := .focusToggle }
      else if m.focusedControl = .focusTemperature then
        { m with focusedControl := .focusBrightness }
      else m
  | .keyDown =>
      if m.focusedControl.isActionButton then
        { m with focusedControl := .focusBrightness }
      else if m.focusedControl = .focusBrightness then
        { m with focusedControl := .focusTemperature }
      else m
  | .keyLeft =>
      match m.focusedControl with
      | .focusTurnOff => { m with focusedControl := .focusToggle }
      | .focusTurnOn => { m with focusedControl := .focusTurnOff }
      | .focusBrightness =>
          { m with brightnessValue := brightStepDown m.brightnessValue }
      | .focusTemperature =>
          { m with temperatureValue := tempStepDown m.temperatureValue }
      | .focusToggle => m
  | .keyRight =>
      match m.focusedControl with
      | .focusToggle => { m with focusedControl := .focusTurnOff }
      | .focusTurnOff => { m with focusedControl := .focusTurnOn }
      | .focusBrightness =>
          { m with brightnessValue := brightStepUp m.brightnessValue }
      | .focusTemperature =>
          { m with temperatureValue := tempStepUp m.temperatureValue }
      | .focusTurnOn => m

/-- Go map read `m.lights[name]`: empty string when the key is absent. -/
def mapGet (lights : List (String × String)) (name : String) : String :=
  (lights.lookup name).getD ""

/-- `getSelectedLightIPs` from the source: the addresses the current
selection mode resolves to. -/
def getSelectedLightIPs (m : TuiModel) : List String :=
  match m.selectedLightMode with
  | .allLights => m.lights.map (fun p => p.2)
  | .light1 =>
      if 1 ≤ m.lightsList.length then [mapGet m.lights (m.lightsList.getD 0 "")]
      else []
  | .light2 =>
      if 2 ≤ m.lightsList.length then [mapGet m.lights (m.lightsList.getD 1 "")]
      else []

/-- `loadConfig` from the source. The file system is modelled by
`file : Option (Option Config)`: `none` is a read error, `some none` a parse
error, `some (some c)` a successfully parsed config. Both failure cases
return the built-in defaults (empty registry, 50, 4000). -/
def loadConfig (file : Option (Option Config)) : Config :=
  match file with
  | none => ⟨[], 50, 4000, ""⟩
  | some none => ⟨[], 50, 4000, ""⟩
  | some (some config) => config

/-- `initialModel` from the source: load the config, replace a zero
`lastBrightness` / `lastTemperature` with 50 / 4000, snapshot the
registry's names into `lightsList`, and seed the pending values. -/
def initialModel (file : Option (Option Config)) : TuiModel :=
  let config := loadConfig file
  let config :=
    if config.lastBrightness = 0 then { config with lastBrightness := 50 }
    else config
  let config :=
    if config.lastTemperature = 0 then { config with lastTemperature := 4000 }
    else config
  { config := config
    lights := config.lights
    lightsList := config.lights.map (fun p => p.1)
    selectedLightMode := .allLights
    focusedControl := .focusToggle
    brightnessValue := config.lastBrightness
    temperatureValue := config.lastTemperature
    message := "" }

/-- The loop body of `activateControl`'s brightness / temperature cases:
attempt the writes in order and stop at the first failure (`break`), the
`success` flag ending up true exactly when every write returned `ok`. -/
def writeAllBreak (net : String → WriteOutcome) : List String → Bool
  | [] => true
  | ip :: rest =>
      match net ip with
      | .ok => writeAllBreak net rest
      | .offline => false
      | .rejected => false

/-- `activateControl`, `focusBrightness` case: write the pending brightness
to every selected address, and only if all writes succeeded update
`config.LastBrightness` and save. The returned `Bool` records whether
`saveConfig` was called. -/
def activateBrightness (net : String → WriteOutcome) (m : TuiModel) :
    TuiModel × Bool :=
  let ips := getSelectedLightIPs m
  if writeAllBreak net ips then
    ({ m with config := { m.config with lastBrightness := m.brightnessValue },
              message := "Brightness set" }, true)
  else
    ({ m with message := "Error setting brightness" }, false)

/-- `activateControl`, `focusTemperature` case: write the pending
temperature to every selected address, and only if all writes succeeded
update `config.LastTemperature` and save. -/
def activateTemperature (net : String → WriteOutcome) (m : TuiModel) :
    TuiModel × Bool :=
  let ips := getSelectedLightIPs m
  if writeAllBreak net ips then
    ({ m with config := { m.config with lastTemperature := m.temperatureValue },
              message := "Temperature set" }, true)
  else
    ({ m with message := "Error setting temperature" }, false)

/-- `cliBrightness`, explicit-value case: reject a value outside 3..100
before any network call (`none`, the CLI exits non-zero); otherwise attempt
one write per registered light (failures only print), then unconditionally
store the value in `LastBrightness` and save. The write list records each
attempted write and its outcome. -/
def cliBrightnessSet (net : String → WriteOutcome)
    (lights : List (String × String)) (brightness : Int) (config : Config) :
    Option (List (String × Int × WriteOutcome) × Config) :=
  if brightness < 3 ∨ 100 < brightness then none
  else
    some (lights.map (fun p => (p.2, brightness, net p.2)),
      { config with lastBrightness := brightness })

/-- `cliTemperature`, explicit-value case: reject a value outside
2900..7000 before any network call; otherwise attempt one write per light,
then unconditionally store the value in `LastTemperature` and save. -/
def cliTemperatureSet (net : String → WriteOutcome)
    (lights : List (String × String)) (temperature : Int) (config : Config) :
    Option (List (String × Int × WriteOutcome) × Config) :=
  if temperature < 2900 ∨ 7000 < temperature then none
  else
    some (lights.map (fun p => (p.2, temperature, net p.2)),
      { config with lastTemperature := temperature })

/-- The accumulation loop of `cliBrightness`'s `=` case: sum the
brightness of each light whose state read succeeds, counting only those. -/
def sumReadableBrightness (readNet : String → Option LightState) :
    List (String × String) → Int × Int
  | [] => (0, 0)
  | (_, ip) :: rest =>
      let acc := sumReadableBrightness readNet rest
      match readNet ip with
      | some state => (state.Brightness + acc.1, acc.2 + 1)
      | none => acc

/-- The accumulation loop of `cliTemperature`'s `=` case: sum
`int(1000000 / state.Temperature)` over the lights whose read succeeds. -/
def sumReadableKelvin (readNet : String → Option LightState) :
    List (String × String) → Int × Int
  | [] => (0, 0)
  | (_, ip) :: rest =>
      let acc := sumReadableKelvin readNet rest
      match readNet ip with
      | some state => (wireToKelvin state.Temperature + acc.1, acc.2 + 1)
      | none => acc

/-- Result of an equalize command: either no light could be read (the CLI
prints an error and returns without writing), or the averaged value
together with the write issued to every registered address. -/
inductive EqualizeResult where
  | noReadable
  | applied (avg : Int) (writes : List (String × Int × WriteOutcome))
  deriving DecidableEq, Repr

/-- `cliBrightness`, `=` case: average the successfully read brightness
values with Go integer division and write that average to every light. -/
def cliBrightnessEq (readNet : String → Option LightState)
    (net : String → WriteOutcome) (lights : List (String × String)) :
    EqualizeResult :=
  let acc := sumReadableBrightness readNet lights
  if acc.2 = 0 then .noReadable
  else
    let avg := Int.tdiv acc.1 acc.2
    .applied avg (lights.map (fun p => (p.2, avg, net p.2)))

/-- `cliTemperature`, `=` case: average the successfully read (converted)
Kelvin values with Go integer division and write that average to every
light. -/
def cliTemperatureEq (readNet : String → Option LightState)
    (net : String → WriteOutcome) (lights : List (String × String)) :
    EqualizeResult :=
  let acc := sumReadableKelvin readNet lights
  if acc.2 = 0 then .noReadable
  else
    let avg := Int.tdiv acc.1 acc.2
    .applied avg (lights.map (fun p => (p.2, avg, net p.2)))

/-- The states successfully read during one pass over the registry, in
enumeration order (specification-side view of the accumulation loops). -/
def readableStates (readNet : String → Option LightState)
    (lights : List (String × String)) : List LightState :=
  lights.filterMap (fun p => readNet p.2)

/-- `cliBrightness`, `+` case (and the single-light variant): per light,
read its own state (skip it on read failure, the CLI just prints), add 5,
clamp at 100, and write back. Each entry records the attempted write. -/
def cliBrightnessPlus (readNet : String → Option LightState)
    (net : String → WriteOutcome) (lights : List (String × String)) :
    List (String × Int × WriteOutcome) :=
  lights.filterMap (fun p =>
    match readNet p.2 with
    | none => none
    | some state => some (p.2, brightStepUp state.Brightness, net p.2))

/-- `cliBrightness`, `-` case: per light, read, subtract 5, clamp at 3,
write back. -/
def cliBrightnessMinus (readNet : String → Option LightState)
    (net : String → WriteOutcome) (lights : List (String × String)) :
    List (String × Int × WriteOutcome) :=
  lights.filterMap (fun p =>
    match readNet p.2 with
    | none => none
    | some state => some (p.2, brightStepDown state.Brightness, net p.2))

/-- `cliTemperature`, `+` case: per light, read, convert the wire value to
Kelvin, add 200, clamp at 7000, write back. -/
def cliTemperaturePlus (readNet : String → Option LightState)
    (net : String → WriteOutcome) (lights : List (String × String)) :
    List (String × Int × WriteOutcome) :=
  lights.filterMap (fun p =>
    match readNet p.2 with
    | none => none
    | some state => some (p.2, tempStepUp (wireToKelvin state.Temperature), net p.2))

/-- `cliTemperature`, `-` case: per light, read, convert to Kelvin,
subtract 200, clamp at 2900, write back. -/
def cliTemperatureMinus (readNet : String → Option LightState)
    (net : String → WriteOutcome) (lights : List (String × String)) :
    List (String × Int × WriteOutcome) :=
  lights.filterMap (fun p =>
    match readNet p.2 with
    | none => none
    | some state => some (p.2, tempStepDown (wireToKelvin state.Temperature), net p.2))

/-- Decoding of a GET response body in `getLightState`: either the JSON
decode fails or it yields the `lights` array. -/
inductive DecodeResult where
  | decodeError
  | decoded (lights : List LightState)
  deriving DecidableEq, Repr

/-- One HTTP GET as `getLightState` observes it: a transport error, or a
response with a status code and a body. -/
inductive HttpGetResult where
  | transportError
  | response (status : Nat) (body : DecodeResult)
  deriving DecidableEq, Repr

/-- The failure cases `getLightState` can actually produce. -/
inductive GetError where
  | transport
  | decodeFailed
  | noLights
  deriving DecidableEq, Repr

/-- `getLightState` from the source: propagate a transport error, decode
the body (the status code is never inspected), fail on an empty `lights`
array, otherwise return the first entry. -/
def getLightState : HttpGetResult → Except GetError LightState
  | .transportError => .error .transport
  | .response _ .decodeError => .error .decodeFailed
  | .response _ (.decoded []) => .error .noLights
  | .response _ (.decoded (light :: _)) => .ok light

/-- Observable events of the `toggleLightFast` retry loop. -/
inductive ToggleEvent where
  | attemptCall (n : Nat)
  | sleepMs (ms : Nat)
  deriving DecidableEq, Repr

/-- Result of `toggleLightFast`: success, or the wrapped final error
`failed after <attempts> attempts: <last>`. -/
inductive FastResult (E : Type) where
  | ok
  | failedAfter (attempts : Nat) (last : E)
  deriving DecidableEq, Repr

/-- The `for attempt := 1; attempt <= maxAttempts` retry loop of
`toggleLightFast`, as a bounded-retry combinator. `att k` is the outcome of
the k-th `toggleLightAttempt` (`none` = success); a `sleepMs` event is
emitted between attempts only (`attempt < maxAttempts`). `fuel` is the
number of loop iterations still permitted. -/
def retryLoop {E : Type} (att : Nat → Option E) (maxAttempts delayMs : Nat) :
    Nat → Nat → Option E → Option E × List ToggleEvent
  | _, 0, lastErr => (lastErr, [])
  | attempt, fuel + 1, _ =>
      match att attempt with
      | none => (none, [.attemptCall attempt])
      | some e =>
          if attempt < maxAttempts then
            let r := retryLoop att maxAttempts delayMs (attempt + 1) fuel (some e)
            (r.1, .attemptCall attempt :: .sleepMs delayMs :: r.2)
          else (some e, [.attemptCall attempt])

/-- `toggleLightFast` from the source: up to 3 attempts with a 100ms sleep
between attempts; success as soon as one attempt succeeds, otherwise a
failure wrapping the last error. -/
def toggleLightFast {E : Type} (att : Nat → Option E) :
    FastResult E × List ToggleEvent :=
  match retryLoop att 3 100 1 3 none with
  | (none, evs) => (.ok, evs)
  | (some e, evs) => (.failedAfter 3 e, evs)

/-- The index-lookup loop of `cliSpecificLight`: `i := 1`, range over the
registry in the order `entries` the runtime enumerates the Go map, stop at
the entry whose running position equals `index`. -/
def findLightByIndexFrom (index : Int) :
    Int → List (String × String) → Option (String × String)
  | _, [] => none
  | i, e :: rest =>
      if i = index then some e else findLightByIndexFrom index (i + 1) rest

/-- `cliSpecificLight`'s resolution of a numeric identifier against one
runtime enumeration of the registry map. -/
def cliFindByIndex (entries : List (String × String)) (index : Int) :
    Option (String × String) :=
  findLightByIndexFrom index 1 entries

/-! ## Shared helper lemmas -/

/-- The break-on-first-error loop succeeds exactly when every targeted
write succeeds. -/
theorem writeAllBreak_eq_true_iff (net : String → WriteOutcome)
    (ips : List String) :
    writeAllBreak net ips = true ↔ ∀ ip ∈ ips, net ip = .ok := by
  induction ips with
  | nil => simp [writeAllBreak]
  | cons ip rest ih =>
      cases h : net ip <;> simp [writeAllBreak, h, ih]

/-! ## Concrete fixtures used by witnesses -/

/-- A sample in-range TUI model with a single registered light, currently
in ordinal-2 selection mode. -/
def sampleModel : TuiModel :=
  { config := ⟨[("L1", "a")], 50, 4000, ""⟩
    lights := [("L1", "a")]
    lightsList := ["L1"]
    selectedLightMode := .light2
    focusedControl := .focusToggle
    brightnessValue := 50
    temperatureValue := 4000
    message := "" }

/-! ## Claims -/

/-- C6: selecting an ordinal that does not exist is a no-op that retains
the previous selection mode, and resolving addresses for an ordinal beyond
the registry size yields an empty address set. -/
theorem ordinal_select_noop_resolve_empty (m : TuiModel)
    (h : m.lightsList.length < 2) :
    Update m .key2 = m ∧
    (m.selectedLightMode = .light2 → getSelectedLightIPs m = []) ∧
    (m.lightsList.length = 0 → m.selectedLightMode = .light1 →
      getSelectedLightIPs m = []) := by
  refine ⟨?_, ?_, ?_⟩
  · simp only [Update]
    rw [if_neg (by omega)]
  · intro hm
    simp only [getSelectedLightIPs, hm]
    rw [if_neg (by omega)]
  · intro hlen hm
    simp only [getSelectedLightIPs, hm]
    rw [if_neg (by omega)]

/-- Witness for C6 at a one-light registry in ordinal-2 mode. -/
theorem ordinal_select_noop_resolve_empty_witness :
    sampleModel.lightsList.length < 2 ∧
    Update sampleModel .key2 = sampleModel ∧
    getSelectedLightIPs sampleModel = [] := by
  have h := ordinal_select_noop_resolve_empty sampleModel (by decide)
  exact ⟨by decide, h.1, h.2.1 rfl⟩

/-- C7: from any action-button focus, one `down` moves focus to the
brightness row and a second `down` to the temperature row; from the
temperature row `up` returns to brightness (not the button row); on the
value rows left/right keeps focus and adjusts the pending value by its step
(±5 brightness, ±200 temperature), clamped to its range. -/
theorem focus_navigation_and_value_adjust (m : TuiModel) :
    (m.focusedControl.isActionButton = true →
      (Update m .keyDown).focusedControl = .focusBrightness ∧
      (Update (Update m .keyDown) .keyDown).focusedControl = .focusTemperature) ∧
    (m.focusedControl = .focusTemperature →
      (Update m .keyUp).focusedControl = .focusBrightness) ∧
    (m.focusedControl = .focusBrightness →
      (Update m .keyLeft).focusedControl = .focusBrightness ∧
      (Update m .keyLeft).brightnessValue = max (m.brightnessValue - 5) 3 ∧
      (Update m .keyRight).focusedControl = .focusBrightness ∧
      (Update m .keyRight).brightnessValue = min (m.brightnessValue + 5) 100) ∧
    (m.focusedControl = .focusTemperature →
      (Update m .keyLeft).focusedControl = .focusTemperature ∧
      (Update m .keyLeft).temperatureValue = max (m.temperatureValue - 200) 2900 ∧
      (Update m .keyRight).focusedControl = .focusTemperature ∧
      (Update m .keyRight).temperatureValue = min (m.temperatureValue + 200) 7000) := by
  refine ⟨?_, ?_, ?_, ?_⟩
  · intro h
    cases hf : m.focusedControl <;>
      simp [Update, hf, ControlFocus.isActionButton] <;>
      simp [hf, ControlFocus.isActionButton] at h
  · intro h
    simp [Update, h]
  · intro h
    refine ⟨by simp [Update, h], ?_, by simp [Update, h], ?_⟩
    · simp only [Update, h, brightStepDown]
      split <;> omega
    · simp only [Update, h, brightStepUp]
      split <;> omega
  · intro h
    refine ⟨by simp [Update, h], ?_, by simp [Update, h], ?_⟩
    · simp only [Update, h, tempStepDown]
      split <;> omega
    · simp only [Update, h, tempStepUp]
      split <;> omega

/-- Witness for C7 starting from Toggle focus on the sample model. -/
theorem focus_navigation_and_value_adjust_witness :
    sampleModel.focusedControl.isActionButton = true ∧
    (Update sampleModel .keyDown).focusedControl = .focusBrightness ∧
    (Update (Update sampleModel .keyDown) .keyDown).focusedControl =
      .focusTemperature := by
  have h := (focus_navigation_and_value_adjust sampleModel).1 (by decide)
  exact ⟨by decide, h.1, h.2⟩

/-- C10: a persisted config that loads and parses successfully but stores
`lastBrightness = 0` (resp. `lastTemperature = 0`) starts the session with
the default 50 (resp. 4000); a nonzero stored value is kept as is. -/
theorem stored_zero_treated_as_unconfigured (c : Config) :
    (c.lastBrightness = 0 →
      (initialModel (some (some c))).brightnessValue = 50 ∧
      (initialModel (some (some c))).config.lastBrightness = 50) ∧
    (c.lastTemperature = 0 →
      (initialModel (some (some c))).temperatureValue = 4000 ∧
      (initialModel (some (some c))).config.lastTemperature = 4000) ∧
    (c.lastBrightness ≠ 0 →
      (initialModel (some (some c))).brightnessValue = c.lastBrightness) ∧
    (c.lastTemperature ≠ 0 →
      (initialModel (some (some c))).temperatureValue = c.lastTemperature) := by
  refine ⟨?_, ?_, ?_, ?_⟩ <;> intro h <;>
    simp only [initialModel, loadConfig] <;>
    split <;> simp_all <;> split <;> simp_all

/-- Witness for C10: a parsed config storing zero for both defaults. -/
theorem stored_zero_treated_as_unconfigured_witness :
    (⟨[], 0, 0, ""⟩ : Config).lastBrightness = 0 ∧
    (initialModel (some (some ⟨[], 0, 0, ""⟩))).brightnessValue = 50 := by
  have h := (stored_zero_treated_as_unconfigured ⟨[], 0, 0, ""⟩).1 rfl
  exact ⟨rfl, h.1⟩

/-- C5: `toggleLightFast` makes up to 3 sequential attempts with a fixed
100ms sleep between attempts; if any attempt succeeds it returns success
with no error surfaced (in particular when the first two attempts fail and
the third succeeds), and if all 3 attempts fail it returns a failure
wrapping the last underlying error. -/
theorem toggleLightFast_retry_spec {E : Type} (att : Nat → Option E) :
    (∀ e1 e2, att 1 = some e1 → att 2 = some e2 → att 3 = none →
      toggleLightFast att =
        (.ok, [.attemptCall 1, .sleepMs 100, .attemptCall 2, .sleepMs 100,
          .attemptCall 3])) ∧
    (∀ e1 e2 e3, att 1 = some e1 → att 2 = some e2 → att 3 = some e3 →
      toggleLightFast att =
        (.failedAfter 3 e3, [.attemptCall 1, .sleepMs 100, .attemptCall 2,
          .sleepMs 100, .attemptCall 3])) ∧
    ((∃ k, 1 ≤ k ∧ k ≤ 3 ∧ att k = none) → (toggleLightFast att).1 = .ok) := by
  refine ⟨?_, ?_, ?_⟩
  · intro e1 e2 h1 h2 h3
    simp [toggleLightFast, retryLoop, h1, h2, h3]
  · intro e1 e2 e3 h1 h2 h3
    simp [toggleLightFast, retryLoop, h1, h2, h3]
  · rintro ⟨k, hk1, hk3, hk⟩
    cases h1 : att 1 with
    | none => simp [toggleLightFast, retryLoop, h1]
    | some e1 =>
        cases h2 : att 2 with
        | none => simp [toggleLightFast, retryLoop, h1, h2]
        | some e2 =>
            cases h3 : att 3 with
            | none => simp [toggleLightFast, retryLoop, h1, h2, h3]
            | some e3 =>
                exfalso
                interval_cases k <;> simp_all

/-- A concrete attempt oracle whose first two attempts fail and whose
third succeeds. -/
def sampleAttempts : Nat → Option Nat :=
  fun k => if k = 3 then none else some k

/-- Witness for C5: two failures then a success yields overall success. -/
theorem toggleLightFast_retry_spec_witness :
    sampleAttempts 1 = some 1 ∧ sampleAttempts 2 = some 2 ∧
    sampleAttempts 3 = none ∧
    toggleLightFast sampleAttempts =
      (.ok, [.attemptCall 1, .sleepMs 100, .attemptCall 2, .sleepMs 100,
        .attemptCall 3]) := by
  have h := (toggleLightFast_retry_spec sampleAttempts).1 1 2 rfl rfl rfl
  exact ⟨rfl, rfl, rfl, h⟩

/-- C8 counterexample: a response with HTTP status 500 whose body decodes
to a non-empty device list is returned as success by `getLightState`, not
as a failure, although 500 is not a 200 status. -/
theorem getLightState_ignores_status_counterexample :
    getLightState (.response 500 (.decoded [⟨1, 50, 200⟩])) =
      .ok ⟨1, 50, 200⟩ ∧ (500 : Nat) ≠ 200 := by
  exact ⟨rfl, by decide⟩

/-- C8 amended: the read operation fails on transport error, decode
failure, or an empty device list; the HTTP status code is never inspected
(so a non-200 response with a decodable non-empty body succeeds); on
success it returns the first device entry only. -/
theorem getLightState_failure_spec :
    (getLightState .transportError = .error .transport) ∧
    (∀ status, getLightState (.response status .decodeError) =
      .error .decodeFailed) ∧
    (∀ status, getLightState (.response status (.decoded [])) =
      .error .noLights) ∧
    (∀ status light rest,
      getLightState (.response status (.decoded (light :: rest))) =
        .ok light) := by
  exact ⟨rfl, fun _ => rfl, fun _ => rfl, fun _ _ _ => rfl⟩

/-- The Kelvin round trip restricted to naturals (every Kelvin value in
the claimed range is positive, where Go's truncating division agrees with
natural division). -/
def kelvinRoundTripNat (kelvin : Nat) : Nat :=
  1000000 / (1000000 / kelvin)

/-- On natural inputs the `Int` round trip is the natural one. -/
theorem kelvinRoundTrip_natCast (n : Nat) :
    kelvinRoundTrip (n : Int) = (kelvinRoundTripNat n : Int) := rfl

/-- Core inequality behind the drift bound: any `w` and `rt` satisfying
the floor-division characterisations of `1000000 / n` and `1000000 / w`
with `n` in the claimed Kelvin range obey `n ≤ rt ≤ n + 48`. -/
theorem div_roundtrip_drift (n w rt : Nat) (h1 : 2900 ≤ n) (h2 : n ≤ 7000)
    (hwn : w * n ≤ 1000000) (hwn2 : 1000000 < (w + 1) * n)
    (hrtw : rt * w ≤ 1000000) (hrtw2 : 1000000 < (rt + 1) * w)
    (hw1 : 142 ≤ w) (hw2 : w ≤ 344) :
    n ≤ rt ∧ rt ≤ n + 48 := by
  interval_cases w <;> omega

/-- Drift bound on naturals. -/
theorem kelvinRoundTripNat_drift (n : Nat) (h1 : 2900 ≤ n) (h2 : n ≤ 7000) :
    n ≤ kelvinRoundTripNat n ∧ kelvinRoundTripNat n ≤ n + 48 := by
  have hn : 0 < n := by omega
  have hw0 : 0 < 1000000 / n := by
    have h142 : 1000000 / 7000 ≤ 1000000 / n := Nat.div_le_div_left h2 (by omega)
    omega
  refine div_roundtrip_drift n (1000000 / n) (1000000 / (1000000 / n)) h1 h2
    (Nat.div_mul_le_self _ _)
    ((Nat.div_lt_iff_lt_mul hn).1 (Nat.lt_succ_self _))
    (Nat.div_mul_le_self _ _)
    ((Nat.div_lt_iff_lt_mul hw0).1 (Nat.lt_succ_self _))
    ?_ ?_
  · have h142 : 1000000 / 7000 ≤ 1000000 / n := Nat.div_le_div_left h2 (by omega)
    omega
  · have h344 : 1000000 / n ≤ 1000000 / 2900 := Nat.div_le_div_left h1 (by omega)
    omega

/-- C2 counterexample: 7000 is in [2900,7000] but its wire round trip is
7042 (the code truncates `1000000/7000` to 142 and `1000000/142` to 7042),
which is not within 1 of 7000. -/
theorem kelvinRoundTrip_not_within_one :
    (2900 : Int) ≤ 7000 ∧ (7000 : Int) ≤ 7000 ∧
    kelvinRoundTrip 7000 = 7042 ∧ ¬(kelvinRoundTrip 7000 ≤ 7000 + 1) := by
  refine ⟨by decide, by decide, by decide, by decide⟩

/-- C2 amended: for every K in [2900,7000], the Kelvin→wire→Kelvin round
trip (both conversions truncate, as the code's integer division does)
yields a value K' with K ≤ K' ≤ K + 48; the drift can reach 48, not 1. -/
theorem kelvinRoundTrip_drift_bound (k : Int) (h1 : 2900 ≤ k)
    (h2 : k ≤ 7000) :
    k ≤ kelvinRoundTrip k ∧ kelvinRoundTrip k ≤ k + 48 := by
  obtain ⟨n, rfl⟩ : ∃ n : Nat, k = (n : Int) :=
    ⟨k.toNat, (Int.toNat_of_nonneg (by omega)).symm⟩
  rw [kelvinRoundTrip_natCast]
  have hb := kelvinRoundTripNat_drift n (by exact_mod_cast h1) (by exact_mod_cast h2)
  exact ⟨by exact_mod_cast hb.1, by exact_mod_cast hb.2⟩

/-- Witness for C2's amended bound at K = 7000. -/
theorem kelvinRoundTrip_drift_bound_witness :
    (2900 : Int) ≤ 7000 ∧ (7000 : Int) ≤ 7000 ∧
    (7000 : Int) ≤ kelvinRoundTrip 7000 ∧ kelvinRoundTrip 7000 ≤ 7000 + 48 := by
  have h := kelvinRoundTrip_drift_bound 7000 (by decide) (by decide)
  exact ⟨by decide, by decide, h.1, h.2⟩

/-- The brightness accumulation loop computes the sum and count of the
successfully read states, unreadable devices contributing nothing. -/
theorem sumReadableBrightness_eq (readNet : String → Option LightState)
    (lights : List (String × String)) :
    sumReadableBrightness readNet lights =
      (((readableStates readNet lights).map (fun s => s.Brightness)).sum,
        ((readableStates readNet lights).length : Int)) := by
  induction lights with
  | nil => rfl
  | cons p rest ih =>
      obtain ⟨name, ip⟩ := p
      cases h : readNet ip <;>
        simp [sumReadableBrightness, readableStates, List.filterMap_cons, h,
          ih] at *

/-- The temperature accumulation loop computes the sum and count of the
converted Kelvin values of the successfully read states. -/
theorem sumReadableKelvin_eq (readNet : String → Option LightState)
    (lights : List (String × String)) :
    sumReadableKelvin readNet lights =
      (((readableStates readNet lights).map
          (fun s => wireToKelvin s.Temperature)).sum,
        ((readableStates readNet lights).length : Int)) := by
  induction lights with
  | nil => rfl
  | cons p rest ih =>
      obtain ⟨name, ip⟩ := p
      cases h : readNet ip <;>
        simp [sumReadableKelvin, readableStates, List.filterMap_cons, h,
          ih] at *

/-- Go's truncating average of a non-empty list of values lying in
`[a, b]` (with `0 ≤ a`) lies in `[a, b]` as well. -/
theorem tdiv_avg_bounds (xs : List Int) (a b : Int) (hne : xs ≠ [])
    (ha : 0 ≤ a) (h : ∀ x ∈ xs, a ≤ x ∧ x ≤ b) :
    a ≤ Int.tdiv xs.sum (xs.length : Int) ∧
      Int.tdiv xs.sum (xs.length : Int) ≤ b := by
  have hlen : 0 < (xs.length : Int) := by
    have := List.length_pos.2 hne
    exact_mod_cast this
  have hsum0 : 0 ≤ xs.sum :=
    List.sum_nonneg (fun x hx => le_trans ha (h x hx).1)
  rw [Int.tdiv_eq_ediv hsum0 (le_of_lt hlen)]
  constructor
  · rw [Int.le_ediv_iff_mul_le hlen]
    have := List.card_nsmul_le_sum xs a (fun x hx => (h x hx).1)
    rw [nsmul_eq_mul] at this
    calc a * (xs.length : Int) = (xs.length : Int) * a := by ring
    _ ≤ xs.sum := this
  · have hsb : xs.sum ≤ b * (xs.length : Int) := by
      have := List.sum_le_card_nsmul xs b (fun x hx => (h x hx).2)
      rw [nsmul_eq_mul] at this
      calc xs.sum ≤ (xs.length : Int) * b := this
      _ = b * (xs.length : Int) := by ring
    calc xs.sum / (xs.length : Int) ≤ b * (xs.length : Int) / (xs.length : Int) :=
          Int.ediv_le_ediv hlen hsb
    _ = b := Int.mul_ediv_cancel b (by omega)

/-- C3: equalize averages the successfully read values only (with Go's
truncating integer division), writes that single value to every registered
address, and when zero devices are readable it reports failure and issues
no writes. -/
theorem equalize_mean_of_readable (readNet : String → Option LightState)
    (net : String → WriteOutcome) (lights : List (String × String)) :
    (readableStates readNet lights = [] →
      cliBrightnessEq readNet net lights = .noReadable ∧
      cliTemperatureEq readNet net lights = .noReadable) ∧
    (readableStates readNet lights ≠ [] →
      cliBrightnessEq readNet net lights =
        (let avg := Int.tdiv
          (((readableStates readNet lights).map (fun s => s.Brightness)).sum)
          ((readableStates readNet lights).length : Int)
        .applied avg (lights.map (fun p => (p.2, avg, net p.2)))) ∧
      cliTemperatureEq readNet net lights =
        (let avg := Int.tdiv
          (((readableStates readNet lights).map
            (fun s => wireToKelvin s.Temperature)).sum)
          ((readableStates readNet lights).length : Int)
        .applied avg (lights.map (fun p => (p.2, avg, net p.2))))) := by
  constructor
  · intro hempty
    constructor
    · simp [cliBrightnessEq, sumReadableBrightness_eq, hempty]
    · simp [cliTemperatureEq, sumReadableKelvin_eq, hempty]
  · intro hne
    have hlen : ((readableStates readNet lights).length : Int) ≠ 0 := by
      have := List.length_pos.2 hne
      omega
    constructor
    · simp [cliBrightnessEq, sumReadableBrightness_eq, hlen]
    · simp [cliTemperatureEq, sumReadableKelvin_eq, hlen]

/-- Read oracle for the witness: brightness 40 and 60 readable at `a` and
`b`, the device at `c` unreadable. -/
def sampleReadNet : String → Option LightState :=
  fun ip =>
    if ip = "a" then some ⟨1, 40, 250⟩
    else if ip = "b" then some ⟨1, 60, 250⟩
    else none

/-- A three-light registry used by the witnesses. -/
def sampleLights : List (String × String) :=
  [("L1", "a"), ("L2", "b"), ("L3", "c")]

/-- Witness for C3, the spec's own example: readable brightness 40 and 60
plus one unreadable device equalizes to 50, written to all three. -/
theorem equalize_mean_of_readable_witness :
    readableStates sampleReadNet sampleLights ≠ [] ∧
    cliBrightnessEq sampleReadNet (fun _ => .ok) sampleLights =
      .applied 50 [("a", 50, .ok), ("b", 50, .ok), ("c", 50, .ok)] := by
  have h := ((equalize_mean_of_readable sampleReadNet (fun _ => .ok)
    sampleLights).2 (by decide)).1
  exact ⟨by decide, h.trans (by decide)⟩

/-- The clamped brightness increment stays in [3,100] on in-range input. -/
theorem brightStepUp_range (v : Int) (h1 : 3 ≤ v) (h2 : v ≤ 100) :
    3 ≤ brightStepUp v ∧ brightStepUp v ≤ 100 := by
  simp only [brightStepUp]
  split <;> omega

/-- The clamped brightness decrement stays in [3,100] on in-range input. -/
theorem brightStepDown_range (v : Int) (h1 : 3 ≤ v) (h2 : v ≤ 100) :
    3 ≤ brightStepDown v ∧ brightStepDown v ≤ 100 := by
  simp only [brightStepDown]
  split <;> omega

/-- The clamped temperature increment stays in [2900,7000] on in-range
input. -/
theorem tempStepUp_range (t : Int) (h1 : 2900 ≤ t) (h2 : t ≤ 7000) :
    2900 ≤ tempStepUp t ∧ tempStepUp t ≤ 7000 := by
  simp only [tempStepUp]
  split <;> omega

/-- The clamped temperature decrement stays in [2900,7000] on in-range
input. -/
theorem tempStepDown_range (t : Int) (h1 : 2900 ≤ t) (h2 : t ≤ 7000) :
    2900 ≤ tempStepDown t ∧ tempStepDown t ≤ 7000 := by
  simp only [tempStepDown]
  split <;> omega

/-- C4: every brightness value produced by a ± adjustment (interactive or
CLI, the two share the clamping steps) or by equalize lies in [3,100], and
every temperature value so produced lies in [2900,7000], provided the
adjusted input values are themselves in range; boundary crossings clamp
rather than reject. -/
theorem adjustment_values_in_range (v t : Int)
    (readNet : String → Option LightState) (net : String → WriteOutcome)
    (lights : List (String × String))
    (hv1 : 3 ≤ v) (hv2 : v ≤ 100) (ht1 : 2900 ≤ t) (ht2 : t ≤ 7000) :
    (3 ≤ brightStepUp v ∧ brightStepUp v ≤ 100) ∧
    (3 ≤ brightStepDown v ∧ brightStepDown v ≤ 100) ∧
    (2900 ≤ tempStepUp t ∧ tempStepUp t ≤ 7000) ∧
    (2900 ≤ tempStepDown t ∧ tempStepDown t ≤ 7000) ∧
    ((∀ s ∈ readableStates readNet lights,
        3 ≤ s.Brightness ∧ s.Brightness ≤ 100) →
      (∀ e ∈ cliBrightnessPlus readNet net lights,
        3 ≤ e.2.1 ∧ e.2.1 ≤ 100) ∧
      (∀ e ∈ cliBrightnessMinus readNet net lights,
        3 ≤ e.2.1 ∧ e.2.1 ≤ 100) ∧
      (∀ avg writes,
        cliBrightnessEq readNet net lights = .applied avg writes →
          3 ≤ avg ∧ avg ≤ 100)) ∧
    ((∀ s ∈ readableStates readNet lights,
        2900 ≤ wireToKelvin s.Temperature ∧
          wireToKelvin s.Temperature ≤ 7000) →
      (∀ e ∈ cliTemperaturePlus readNet net lights,
        2900 ≤ e.2.1 ∧ e.2.1 ≤ 7000) ∧
      (∀ e ∈ cliTemperatureMinus readNet net lights,
        2900 ≤ e.2.1 ∧ e.2.1 ≤ 7000) ∧
      (∀ avg writes,
        cliTemperatureEq readNet net lights = .applied avg writes →
          2900 ≤ avg ∧ avg ≤ 7000)) := by
  refine ⟨brightStepUp_range v hv1 hv2, brightStepDown_range v hv1 hv2,
    tempStepUp_range t ht1 ht2, tempStepDown_range t ht1 ht2, ?_, ?_⟩
  · intro hbr
    refine ⟨?_, ?_, ?_⟩
    · intro e he
      rw [cliBrightnessPlus, List.mem_filterMap] at he
      obtain ⟨p, hp, hfp⟩ := he
      cases hrp : readNet p.2 with
      | none => rw [hrp] at hfp; exact absurd hfp (by simp)
      | some s =>
          rw [hrp] at hfp
          obtain rfl : e = (p.2, brightStepUp s.Brightness, net p.2) := by
            simpa using hfp.symm
          have hs : s ∈ readableStates readNet lights :=
            List.mem_filterMap.2 ⟨p, hp, hrp⟩
          exact brightStepUp_range _ (hbr s hs).1 (hbr s hs).2
    · intro e he
      rw [cliBrightnessMinus, List.mem_filterMap] at he
      obtain ⟨p, hp, hfp⟩ := he
      cases hrp : readNet p.2 with
      | none => rw [hrp] at hfp; exact absurd hfp (by simp)
      | some s =>
          rw [hrp] at hfp
          obtain rfl : e = (p.2, brightStepDown s.Brightness, net p.2) := by
            simpa using hfp.symm
          have hs : s ∈ readableStates readNet lights :=
            List.mem_filterMap.2 ⟨p, hp, hrp⟩
          exact brightStepDown_range _ (hbr s hs).1 (hbr s hs).2
    · intro avg writes h
      simp only [cliBrightnessEq, sumReadableBrightness_eq] at h
      by_cases hlen : ((readableStates readNet lights).length : Int) = 0
      · rw [if_pos hlen] at h
        exact absurd h (by simp)
      · rw [if_neg hlen] at h
        obtain ⟨rfl, -⟩ :
            Int.tdiv
                (((readableStates readNet lights).map
                  (fun s => s.Brightness)).sum)
                ((readableStates readNet lights).length : Int) = avg ∧
              lights.map (fun p => (p.2,
                Int.tdiv
                  (((readableStates readNet lights).map
                    (fun s => s.Brightness)).sum)
                  ((readableStates readNet lights).length : Int),
                net p.2)) = writes := by
          simpa using h
        have hne : (readableStates readNet lights).map
            (fun s => s.Brightness) ≠ [] := by
          intro hnil
          apply hlen
          have := congrArg List.length hnil
          simp at this
          simp [this]
        have hb := tdiv_avg_bounds
          ((readableStates readNet lights).map (fun s => s.Brightness))
          3 100 hne (by omega) ?_
        · rw [List.length_map] at hb
          exact hb
        · intro x hx
          rw [List.mem_map] at hx
          obtain ⟨s, hs, rfl⟩ := hx
          exact hbr s hs
  · intro htp
    refine ⟨?_, ?_, ?_⟩
    · intro e he
      rw [cliTemperaturePlus, List.mem_filterMap] at he
      obtain ⟨p, hp, hfp⟩ := he
      cases hrp : readNet p.2 with
      | none => rw [hrp] at hfp; exact absurd hfp (by simp)
      | some s =>
          rw [hrp] at hfp
          obtain rfl : e = (p.2, tempStepUp (wireToKelvin s.Temperature),
              net p.2) := by
            simpa using hfp.symm
          have hs : s ∈ readableStates readNet lights :=
            List.mem_filterMap.2 ⟨p, hp, hrp⟩
          exact tempStepUp_range _ (htp s hs).1 (htp s hs).2
    · intro e he
      rw [cliTemperatureMinus, List.mem_filterMap] at he
      obtain ⟨p, hp, hfp⟩ := he
      cases hrp : readNet p.2 with
      | none => rw [hrp] at hfp; exact absurd hfp (by simp)
      | some s =>
          rw [hrp] at hfp
          obtain rfl : e = (p.2, tempStepDown (wireToKelvin s.Temperature),
              net p.2) := by
            simpa using hfp.symm
          have hs : s ∈ readableStates readNet lights :=
            List.mem_filterMap.2 ⟨p, hp, hrp⟩
          exact tempStepDown_range _ (htp s hs).1 (htp s hs).2
    · intro avg writes h
      simp only [cliTemperatureEq, sumReadableKelvin_eq] at h
      by_cases hlen : ((readableStates readNet lights).length : Int) = 0
      · rw [if_pos hlen] at h
        exact absurd h (by simp)
      · rw [if_neg hlen] at h
        obtain ⟨rfl, -⟩ :
            Int.tdiv
                (((readableStates readNet lights).map
                  (fun s => wireToKelvin s.Temperature)).sum)
                ((readableStates readNet lights).length : Int) = avg ∧
              lights.map (fun p => (p.2,
                Int.tdiv
                  (((readableStates readNet lights).map
                    (fun s => wireToKelvin s.Temperature)).sum)
                  ((readableStates readNet lights).length : Int),
                net p.2)) = writes := by
          simpa using h
        have hne : (readableStates readNet lights).map
            (fun s => wireToKelvin s.Temperature) ≠ [] := by
          intro hnil
          apply hlen
          have := congrArg List.length hnil
          simp at this
          simp [this]
        have hb := tdiv_avg_bounds
          ((readableStates readNet lights).map
            (fun s => wireToKelvin s.Temperature))
          2900 7000 hne (by omega) ?_
        · rw [List.length_map] at hb
          exact hb
        · intro x hx
          rw [List.mem_map] at hx
          obtain ⟨s, hs, rfl⟩ := hx
          exact htp s hs

/-- Witness for C4 at the boundary value 100 / 7000 with the sample
registry and read oracle. -/
theorem adjustment_values_in_range_witness :
    (3 : Int) ≤ 100 ∧ (2900 : Int) ≤ 7000 ∧
    3 ≤ brightStepUp 100 ∧ brightStepUp 100 ≤ 100 ∧
    2900 ≤ tempStepUp 7000 ∧ tempStepUp 7000 ≤ 7000 := by
  have h := adjustment_values_in_range 100 7000 sampleReadNet (fun _ => .ok)
    sampleLights (by decide) (by decide) (by decide) (by decide)
  exact ⟨by decide, by decide, h.1.1, h.1.2, h.2.2.1.1, h.2.2.1.2⟩

/-- Write oracle for the C1 counterexample: the device at address `b`
rejects the write, the others accept. -/
def sampleRejectNet : String → WriteOutcome :=
  fun ip => if ip = "b" then .rejected else .ok

/-- Persisted config before the C1 counterexample run. -/
def sampleConfig : Config :=
  ⟨sampleLights, 50, 4000, ""⟩

/-- C1 counterexample: a CLI `bright 80` against three lights of which the
one at `b` rejects the write still persists `lastBrightness = 80` (it was
50), contradicting the claim that a partial failure leaves the persisted
default unchanged. -/
theorem cli_set_persists_despite_partial_failure :
    sampleRejectNet "b" = .rejected ∧
    sampleConfig.lastBrightness = 50 ∧
    cliBrightnessSet sampleRejectNet sampleLights 80 sampleConfig =
      some ([("a", 80, .ok), ("b", 80, .rejected), ("c", 80, .ok)],
        { sampleConfig with lastBrightness := 80 }) ∧
    (80 : Int) ≠ 50 := by
  refine ⟨by decide, by decide, by decide, by decide⟩

/-- C1 amended: the interactive commit (`activateControl`) updates and
saves the persisted default only if every targeted write succeeded and
leaves it untouched on any failure, while the CLI explicit-value path
persists the (range-validated) value unconditionally, regardless of
per-device failures. -/
theorem persisted_default_update_policy (net : String → WriteOutcome)
    (m : TuiModel) (v t : Int) (cfg : Config)
    (lights : List (String × String)) :
    ((∀ ip ∈ getSelectedLightIPs m, net ip = .ok) →
      (activateBrightness net m).1.config.lastBrightness = m.brightnessValue ∧
      (activateBrightness net m).2 = true ∧
      (activateTemperature net m).1.config.lastTemperature =
        m.temperatureValue ∧
      (activateTemperature net m).2 = true) ∧
    ((∃ ip ∈ getSelectedLightIPs m, net ip ≠ .ok) →
      (activateBrightness net m).1.config = m.config ∧
      (activateBrightness net m).2 = false ∧
      (activateTemperature net m).1.config = m.config ∧
      (activateTemperature net m).2 = false) ∧
    (3 ≤ v → v ≤ 100 →
      (cliBrightnessSet net lights v cfg).map
        (fun r => r.2.lastBrightness) = some v) ∧
    (2900 ≤ t → t ≤ 7000 →
      (cliTemperatureSet net lights t cfg).map
        (fun r => r.2.lastTemperature) = some t) := by
  refine ⟨?_, ?_, ?_, ?_⟩
  · intro hall
    have hw : writeAllBreak net (getSelectedLightIPs m) = true :=
      (writeAllBreak_eq_true_iff net _).2 hall
    simp [activateBrightness, activateTemperature, hw]
  · rintro ⟨ip, hip, hne⟩
    have hw : writeAllBreak net (getSelectedLightIPs m) = false := by
      cases hv : writeAllBreak net (getSelectedLightIPs m) with
      | false => rfl
      | true => exact absurd ((writeAllBreak_eq_true_iff net _).1 hv ip hip) hne
    simp [activateBrightness, activateTemperature, hw]
  · intro h1 h2
    rw [cliBrightnessSet, if_neg (by omega)]
    rfl
  · intro h1 h2
    rw [cliTemperatureSet, if_neg (by omega)]
    rfl

/-- Witness for C1's amended statement: the CLI path persists 80 even
though the device at `b` rejects, and an all-ok interactive commit
persists the pending value. -/
theorem persisted_default_update_policy_witness :
    (3 : Int) ≤ 80 ∧ (80 : Int) ≤ 100 ∧
    (cliBrightnessSet sampleRejectNet sampleLights 80 sampleConfig).map
      (fun r => r.2.lastBrightness) = some 80 ∧
    (activateBrightness (fun _ => .ok) sampleModel).1.config.lastBrightness =
      sampleModel.brightnessValue := by
  have h := persisted_default_update_policy sampleRejectNet sampleModel
    80 4000 sampleConfig sampleLights
  have h2 := persisted_default_update_policy (fun _ => .ok) sampleModel
    80 4000 sampleConfig sampleLights
  exact ⟨by decide, by decide, (h.2.2.1 (by decide) (by decide)),
    (h2.1 (fun ip _ => rfl)).1⟩

/-- C9 (failing-input evaluation): the registry containing exactly the
devices named `a` at `ipA` and `b` at `ipB` can be enumerated by the Go
runtime in two different orders (the two lists are permutations of each
other); ordinal 1 resolves to `a`'s address under one enumeration and to
`b`'s under the other, so the same ordinal against the same registry
contents selects different devices. -/
theorem ordinal_resolution_depends_on_enumeration :
    ([("a", "ipA"), ("b", "ipB")] : List (String × String)).Perm
      [("b", "ipB"), ("a", "ipA")] ∧
    cliFindByIndex [("a", "ipA"), ("b", "ipB")] 1 = some ("a", "ipA") ∧
    cliFindByIndex [("b", "ipB"), ("a", "ipA")] 1 = some ("b", "ipB") ∧
    (("a", "ipA") : String × String) ≠ ("b", "ipB") := by
  exact ⟨List.Perm.swap _ _ _, by decide, by decide, by decide⟩

end Keylight
